import Mathlib

/-!
Shallow embedding of the chart-viewer core (fp_app): the chart worker's
request-coalescing drain loop (src/chart.rs), the viewport zoom/scroll
controller (src/app.rs), the coordinate transform pipeline (src/chart.rs)
and the airport lookup worker (src/nasr.rs).  Numeric code (f32/f64 in the
source) is modelled over ℚ, idealizing machine floating point as exact
rational arithmetic; all concrete values appearing in the theorems below are
dyadic rationals on which f32/f64 arithmetic is exact.  The helper module
util.rs is not among the provided sources; the few items taken from it are
modelled from the spec and marked as such.  Definitions come first, all
theorems follow.
-/

namespace FpApp

/-- Modelled from the spec: util::Coord (util.rs is absent from the sources) —
a 2D coordinate with two floating point components, idealized over ℚ. -/
@[ext]
structure Coord where
  x : ℚ
  y : ℚ
deriving DecidableEq, Repr

/-- Modelled from the spec: util::Size — pixel-space size of a chart
("pixel-space size (width, height — must be positive, integral)"). -/
structure Size where
  w : Int
  h : Int
deriving DecidableEq, Repr

/-- Modelled from the spec: util::Size::is_valid — construction of a chart
"fails with InvalidPixelSize if either pixel dimension is non-positive",
so a size is valid exactly when both dimensions are positive. -/
def Size.is_valid (s : Size) : Bool :=
  0 < s.w && 0 < s.h

/-- Modelled from the spec: util::Rect — "a display rectangle (integer pixel
position + size in the source pixel space)". -/
structure Rect where
  x : Int
  y : Int
  w : Int
  h : Int
deriving DecidableEq, Repr

namespace Chart

/-- ImagePart (src/chart.rs): identifies one decode request/result — display
rectangle, zoom factor and day/night flag.  The source stores the zoom as a
bit-hashable f32 (util::Hashable) compared bit-for-bit; here it is an exact ℚ
with decidable equality, which reproduces the exact-equality contract. -/
structure ImagePart where
  rect : Rect
  zoom : ℚ
  dark : Bool
deriving DecidableEq, Repr

/-- ImagePart::new (src/chart.rs): construction asserts zoom > 0; the
assertion is modelled as returning none when it would fire. -/
def ImagePart.new (rect : Rect) (zoom : ℚ) (dark : Bool) : Option ImagePart :=
  if 0 < zoom then some ⟨rect, zoom, dark⟩ else none

/-- Request (src/chart.rs): messages accepted by the chart worker thread. -/
inductive Request where
  | Read (part : ImagePart)
  | Exit
deriving DecidableEq, Repr

/-- Reply (src/chart.rs): outcomes delivered back to the UI thread.  The
decoded image payload and the GDAL error payload are abstract parameters. -/
inductive Reply (I E : Type) where
  | Image (part : ImagePart) (image : I)
  | Canceled (part : ImagePart)
  | GdalError (part : ImagePart) (err : E)
deriving DecidableEq

/-- One wake-up's queue drain (src/chart.rs, the inner loop of Source::_open):
process the queued requests in order; a Read supersedes the previously kept
Read, emitting Canceled for it; Exit makes the worker return at once.  The
result pairs the emitted replies with none when the worker exited, or with
some read carrying the surviving Read part once the queue is empty. -/
def drain (I E : Type) : List Request → Option ImagePart → List (Reply I E) × Option (Option ImagePart)
  | [], read => ([], some read)
  | Request.Read part :: rest, read =>
    let r := drain I E rest (some part)
    ((match read with
      | some canceled => [Reply.Canceled canceled]
      | none => []) ++ r.1, r.2)
  | Request.Exit :: _, _ => ([], none)

/-- Decode step (src/chart.rs, Source::_open): reading the winning part either
yields an Image reply or a GdalError reply for that part; the external GDAL
raster read is abstracted by the decode function. -/
def decodeReply {I E : Type} (decode : ImagePart → Except E I) (part : ImagePart) : Reply I E :=
  match decode part with
  | Except.ok image => Reply.Image part image
  | Except.error err => Reply.GdalError part err

/-- One full wake-up of the worker loop (src/chart.rs, Source::_open): drain
the queue, then decode the surviving Read request when the worker did not
exit.  Returns the replies emitted in order, and whether the worker exited. -/
def wakeUp {I E : Type} (decode : ImagePart → Except E I) (reqs : List Request) :
    List (Reply I E) × Bool :=
  match drain I E reqs none with
  | (replies, none) => (replies, true)
  | (replies, some none) => (replies, false)
  | (replies, some (some part)) => (replies ++ [decodeReply decode part], false)

/-- Predicate: the reply is decode work (Image or GdalError). -/
def Reply.isWork {I E : Type} : Reply I E → Bool
  | Reply.Image _ _ => true
  | Reply.GdalError _ _ => true
  | Reply.Canceled _ => false

/-- Predicate: the reply is a Canceled reply. -/
def Reply.isCanceled {I E : Type} : Reply I E → Bool
  | Reply.Canceled _ => true
  | _ => false

/-- The ImagePart a reply refers to. -/
def Reply.part {I E : Type} : Reply I E → ImagePart
  | Reply.Image p _ => p
  | Reply.Canceled p => p
  | Reply.GdalError p _ => p

/-- The Read parts processed by a drain before the first Exit message, in
order; all but the last of these are superseded by a later Read. -/
def readParts : List Request → List ImagePart
  | [] => []
  | Request.Read p :: rest => p :: readParts rest
  | Request.Exit :: _ => []

/-- SourceError (src/chart.rs): chart-opening error taxonomy. -/
inductive SourceError where
  | GdalError
  | InvalidPixelSize
  | InvalidSpatialReference
  | RasterNotFound
  | ColorTableNotFound
  | InvalidColorTable
deriving DecidableEq, Repr

/-- Character-list test: pat occurs at the head of s (used to express Rust
str::contains below). -/
def leadsWith : List Char → List Char → Bool
  | [], _ => true
  | _ :: _, [] => false
  | a :: pat, b :: s => a == b && leadsWith pat s

/-- Character-list model of Rust str::contains: pat occurs somewhere in s. -/
def containsSub (s pat : List Char) : Bool :=
  match s with
  | [] => pat.isEmpty
  | _ :: rest => leadsWith pat s || containsSub rest pat

/-- ITEMS (src/chart.rs, Data::new): the required fragments of the PROJ4
string — conformal-conic (LCC) projection, NAD83 datum, meter units. -/
def spatialRefItems : List (List Char) :=
  ["+proj=lcc".toList, "+datum=nad83".toList, "+units=m".toList]

/-- The spatial-reference check in Data::new (src/chart.rs): the lowercased
PROJ4 string must contain every required fragment. -/
def checkSpatialRef (proj4 : List Char) : Bool :=
  spatialRefItems.all (fun item => containsSub (proj4.map Char.toLower) item)

/-- Data::new (src/chart.rs) up to the construction of the chart Transform:
the spatial reference is validated first, then the pixel size; the external
GDAL steps (opening the dataset, fetching the PROJ4 string and the
geo-transform, building the PROJ coordinate transforms) are assumed to
succeed and are not modelled.  The validated pixel size stands for the
constructed Transform. -/
def Data.new (proj4 : List Char) (size : Size) : Except SourceError Size :=
  if !checkSpatialRef proj4 then Except.error SourceError.InvalidSpatialReference
  else if !size.is_valid then Except.error SourceError.InvalidPixelSize
  else Except.ok size

/-- GDAL 6-coefficient affine geo-transform (gdal::GeoTransform as used by
Transform in src/chart.rs): x_chart = c0 + x_px * c1 + y_px * c2 and
y_chart = c3 + x_px * c4 + y_px * c5. -/
structure GeoTransform where
  c0 : ℚ
  c1 : ℚ
  c2 : ℚ
  c3 : ℚ
  c4 : ℚ
  c5 : ℚ
deriving DecidableEq, Repr

/-- GeoTransformEx::apply: apply the affine transform to a coordinate. -/
def GeoTransform.apply (gt : GeoTransform) (c : Coord) : Coord :=
  ⟨gt.c0 + c.x * gt.c1 + c.y * gt.c2, gt.c3 + c.x * gt.c4 + c.y * gt.c5⟩

/-- Determinant of the linear part of the affine geo-transform. -/
def GeoTransform.det (gt : GeoTransform) : ℚ :=
  gt.c1 * gt.c5 - gt.c2 * gt.c4

/-- GeoTransformEx::invert: the inverse affine transform; fails (a GDAL
error surfaced by Transform::new) when the linear part is singular. -/
def GeoTransform.invert (gt : GeoTransform) : Option GeoTransform :=
  if gt.det = 0 then none
  else
    some
      ⟨(gt.c2 * gt.c3 - gt.c0 * gt.c5) / gt.det, gt.c5 / gt.det, -gt.c2 / gt.det,
       (gt.c0 * gt.c4 - gt.c1 * gt.c3) / gt.det, -gt.c4 / gt.det, gt.c1 / gt.det⟩

/-- Modelled from the spec: the external projection library's two directional
transforms between the chart projection and NAD83, which Transform::new
creates from the same spatial-reference pair ("forward/inverse
projected↔geodetic transforms"); each direction may fail on coordinates
outside the projection's valid domain. -/
structure ProjPair where
  toGeo : Coord → Option Coord
  fromGeo : Coord → Option Coord

/-- Transform (src/chart.rs): pixel size, the two affine pixel↔chart
transforms, and the two directional chart↔NAD83 transforms. -/
structure Transform where
  px_size : Size
  to_px : GeoTransform
  from_px : GeoTransform
  to_nad83 : Coord → Option Coord
  from_nad83 : Coord → Option Coord

/-- Transform::new (src/chart.rs): invert the supplied geo-transform for the
chart→pixel direction and install the two directional NAD83 transforms built
from the chart's spatial reference; fails when the inversion fails. -/
def Transform.new (px_size : Size) (proj : ProjPair) (geo_transform : GeoTransform) :
    Option Transform :=
  match geo_transform.invert with
  | none => none
  | some to_px => some ⟨px_size, to_px, geo_transform, proj.toGeo, proj.fromGeo⟩

/-- Transform::px_to_chart (src/chart.rs). -/
def Transform.px_to_chart (t : Transform) (c : Coord) : Coord :=
  t.from_px.apply c

/-- Transform::chart_to_px (src/chart.rs). -/
def Transform.chart_to_px (t : Transform) (c : Coord) : Coord :=
  t.to_px.apply c

/-- Transform::chart_to_nad83 (src/chart.rs). -/
def Transform.chart_to_nad83 (t : Transform) (c : Coord) : Option Coord :=
  t.to_nad83 c

/-- Transform::nad83_to_chart (src/chart.rs). -/
def Transform.nad83_to_chart (t : Transform) (c : Coord) : Option Coord :=
  t.from_nad83 c

/-- Concrete projection pair satisfying the external library contract, used
by the C8 witness. -/
def projShift : ProjPair :=
  ⟨fun c => some ⟨c.x + 1, c.y⟩, fun c => some ⟨c.x - 1, c.y⟩⟩

/-- Concrete affine geo-transform used by the C8 witness: uniform scale 2
with translation (10, 20). -/
def gtW : GeoTransform := ⟨10, 2, 0, 20, 0, 2⟩

/-- The Transform the C8 witness constructs from gtW and projShift. -/
def t0W : Transform :=
  ⟨⟨100, 100⟩,
   ⟨(gtW.c2 * gtW.c3 - gtW.c0 * gtW.c5) / gtW.det, gtW.c5 / gtW.det, -gtW.c2 / gtW.det,
    (gtW.c0 * gtW.c4 - gtW.c1 * gtW.c3) / gtW.det, -gtW.c4 / gtW.det, gtW.c1 / gtW.det⟩,
   gtW, projShift.toGeo, projShift.fromGeo⟩

end Chart

namespace App

/-- MIN_ZOOM (src/app.rs): the hard lower bound on the minimum zoom. -/
def MIN_ZOOM : ℚ := 1 / 8

/-- ChartInfo::get_min_zoom (src/app.rs): the larger of the two
viewport-to-chart size ratios, floored at MIN_ZOOM. -/
def get_min_zoom (chartW chartH dispW dispH : ℚ) : ℚ :=
  max (max (dispW / chartW) (dispH / chartH)) MIN_ZOOM

/-- Rust f32::clamp as used by the zoom gesture handler (src/app.rs), total
model: clamp v into [lo, hi]; coincides with the source whenever lo ≤ hi. -/
def clampQ (v lo hi : ℚ) : ℚ := min (max v lo) hi

/-- Rust f32::trunc: round toward zero. -/
def truncQ (q : ℚ) : ℚ := if 0 ≤ q then (⌊q⌋ : ℚ) else (⌈q⌉ : ℚ)

/-- App::set_chart_scroll (src/app.rs): the stored scroll position is the
given position truncated toward zero to an integer and clamped at zero,
componentwise ("make sure the scroll position is on an even pixel"). -/
def set_chart_scroll (pos : Coord) : Coord :=
  ⟨max (truncQ pos.x) 0, max (truncQ pos.y) 0⟩

/-- The anchor-stability formula computed by the zoom gesture handler
(src/app.rs, App::update): pos is the current scroll offset and zoom_pos the
cursor position relative to the viewport origin. -/
def zoom_anchor_pos (pos zoom_pos : Coord) (zoom new_zoom : ℚ) : Coord :=
  ⟨(pos.x + zoom_pos.x) * new_zoom / zoom - zoom_pos.x,
   (pos.y + zoom_pos.y) * new_zoom / zoom - zoom_pos.y⟩

/-- The scroll offset actually stored by the zoom gesture handler: the anchor
formula result passed through set_chart_scroll. -/
def zoom_gesture_scroll (pos zoom_pos : Coord) (zoom new_zoom : ℚ) : Coord :=
  set_chart_scroll (zoom_anchor_pos pos zoom_pos zoom new_zoom)

end App

namespace Nasr

/-- One raw feature row of the airport table (src/nasr.rs): get_coord may
fail to produce a geodetic coordinate and APTInfo::new may fail to produce a
record; both are modelled as precomputed optional fields, with the record
payload abstract. -/
structure Feature (Info : Type) where
  loc : Option Coord
  info : Option Info

/-- APTReply (src/nasr.rs): replies of the airport worker. -/
inductive APTReply (Info : Type) where
  | GdalError
  | Airport (infos : List Info)
deriving DecidableEq

/-- The per-feature distance test of the Nearby handler (src/nasr.rs): the
feature's geodetic location, when present, is projected into chart space by
the installed transform; the squared planar distance to the query coordinate
must be strictly below the squared radius, as the source compares with <. -/
def featureWithin {Info : Type} (t : Coord → Option Coord) (coord : Coord) (d2 : ℚ)
    (f : Feature Info) : Bool :=
  match f.loc with
  | some loc =>
    match t loc with
    | some p =>
      decide ((coord.x - p.x) * (coord.x - p.x) + (coord.y - p.y) * (coord.y - p.y) < d2)
    | none => false
  | none => false

/-- The Nearby scan loop (src/nasr.rs): walk the features in order, project
each available location, and collect the record of every feature whose
squared distance is strictly below d2. -/
def nearbyLoop {Info : Type} (t : Coord → Option Coord) (coord : Coord) (d2 : ℚ) :
    List (Feature Info) → List Info
  | [] => []
  | f :: rest =>
    let tail := nearbyLoop t coord d2 rest
    match f.loc with
    | none => tail
    | some loc =>
      match t loc with
      | none => tail
      | some p =>
        if (coord.x - p.x) * (coord.x - p.x) + (coord.y - p.y) * (coord.y - p.y) < d2 then
          match f.info with
          | some info => info :: tail
          | none => tail
        else tail

/-- The Nearby request handler (src/nasr.rs): square the radius, scan all
features when a transform is installed (an empty scan otherwise), and always
send exactly one Airport reply carrying the collected records. -/
def handleNearby {Info : Type} (transform : Option (Coord → Option Coord))
    (features : List (Feature Info)) (coord : Coord) (dist : ℚ) : APTReply Info :=
  APTReply.Airport
    (match transform with
     | none => []
     | some t => nearbyLoop t coord (dist * dist) features)

/-- APTRequest (src/nasr.rs): messages accepted by the airport worker. -/
inductive APTRequest where
  | SpatialRef (proj4 : List Char)
  | Airport (id : List Char)
  | Nearby (coord : Coord) (dist : ℚ)
  | Search (term : List Char)
  | Exit

/-- The SpatialRef handling of the worker (src/nasr.rs): a SpatialRef message
replaces the stored transform only when the external PROJ parse and
transform construction both succeed (modelled by the parse function); every
other message leaves the stored transform unchanged. -/
def stepTransform {T : Type} (parse : List Char → Option T) (transform : Option T) :
    APTRequest → Option T
  | APTRequest.SpatialRef proj4 =>
    match parse proj4 with
    | some t => some t
    | none => transform
  | _ => transform

/-- The transform stored by the worker after processing a request sequence,
starting from the initial state in which no transform is set. -/
def runTransform {T : Type} (parse : List Char → Option T) (reqs : List APTRequest) :
    Option T :=
  reqs.foldl (stepTransform parse) none

/-- Identity projection used by the concrete C6 instances. -/
def idProj : Coord → Option Coord := fun c => some c

end Nasr

namespace Chart

theorem decodeReply_isWork {I E : Type} (decode : ImagePart → Except E I) (p : ImagePart) :
    (decodeReply decode p).isWork = true := by
  unfold decodeReply
  cases decode p <;> rfl

theorem decodeReply_not_canceled {I E : Type} (decode : ImagePart → Except E I) (p : ImagePart) :
    (decodeReply decode p).isCanceled = false := by
  unfold decodeReply
  cases decode p <;> rfl

theorem decodeReply_part {I E : Type} (decode : ImagePart → Except E I) (p : ImagePart) :
    (decodeReply decode p).part = p := by
  unfold decodeReply
  cases decode p <;> rfl

/-- C1: when Read(R1), Read(R2), Read(R3) are all queued before the worker
wakes and drains its queue, and nothing else arrives during the drain, the
wake-up emits exactly one decode-work reply (Image or GdalError) and it is
for R3, and exactly two Canceled replies, for R1 and R2, in that relative
order. -/
theorem coalescing_three_reads {I E : Type} (decode : ImagePart → Except E I)
    (r1 r2 r3 : ImagePart) :
    ((wakeUp decode [Request.Read r1, Request.Read r2, Request.Read r3]).1.filter
        Reply.isWork).map Reply.part = [r3] ∧
    ((wakeUp decode [Request.Read r1, Request.Read r2, Request.Read r3]).1.filter
        Reply.isCanceled).map Reply.part = [r1, r2] := by
  have h : (wakeUp decode [Request.Read r1, Request.Read r2, Request.Read r3]).1 =
      [Reply.Canceled r1, Reply.Canceled r2, decodeReply decode r3] := by
    simp [wakeUp, drain]
  rw [h]
  cases hd : decode r3 <;>
    simp [decodeReply, hd, List.filter, Reply.isWork, Reply.isCanceled, Reply.part]

theorem drain_replies (I E : Type) (reqs : List Request) (read : Option ImagePart) :
    (drain I E reqs read).1 =
      ((read.toList ++ readParts reqs).dropLast).map (Reply.Canceled (I := I) (E := E)) := by
  induction reqs generalizing read with
  | nil => cases read <;> simp [drain, readParts]
  | cons r rest ih =>
    cases r with
    | Read p =>
      cases read with
      | none => simpa [drain, readParts] using ih (some p)
      | some c =>
        have hd : ((c :: p :: readParts rest).dropLast) =
            c :: ((p :: readParts rest).dropLast) := rfl
        have hr := ih (some p)
        simp [drain, readParts, hd, hr]
    | Exit => cases read <;> simp [drain, readParts]

/-- C2: for every request sequence a wake-up drains (including sequences that
contain an Exit message), the replies emitted during the drain are exactly one
Canceled(part) per Read request discarded in favor of a later request, in
order: every processed Read except the surviving last one is reported back
with its own ImagePart. -/
theorem drain_cancels_every_superseded_read (I E : Type) (reqs : List Request) :
    (drain I E reqs none).1 =
      ((readParts reqs).dropLast).map (Reply.Canceled (I := I) (E := E)) ∧
    ∀ p ∈ (readParts reqs).dropLast,
      Reply.Canceled (I := I) (E := E) p ∈ (drain I E reqs none).1 := by
  have h := drain_replies I E reqs none
  simp only [Option.toList_none, List.nil_append] at h
  exact ⟨h, fun p hp => by rw [h]; exact List.mem_map_of_mem _ hp⟩

/-- C5: opening a chart constructs the coordinate transform for every
positive pixel size when the projection is conformal-conic (LCC) with NAD83
datum and meter units; it fails with InvalidSpatialReference whenever the
PROJ4 string lacks one of the required kind/datum/unit fragments (checked
before the size), and with InvalidPixelSize when the projection is valid but
either pixel dimension is non-positive. -/
theorem data_new_validation (proj4 : List Char) (size : Size) :
    (checkSpatialRef proj4 = true → 0 < size.w → 0 < size.h →
      Data.new proj4 size = Except.ok size) ∧
    (checkSpatialRef proj4 = false →
      Data.new proj4 size = Except.error SourceError.InvalidSpatialReference) ∧
    (checkSpatialRef proj4 = true → ¬(0 < size.w ∧ 0 < size.h) →
      Data.new proj4 size = Except.error SourceError.InvalidPixelSize) ∧
    (checkSpatialRef proj4 = false ↔
      ∃ item ∈ spatialRefItems, containsSub (proj4.map Char.toLower) item = false) := by
  refine ⟨?_, ?_, ?_, ?_⟩
  · intro hc hw hh
    have hv : size.is_valid = true := by simp [Size.is_valid, hw, hh]
    simp [Data.new, hc, hv]
  · intro hc
    simp [Data.new, hc]
  · intro hc hnv
    have hv : size.is_valid = false := by
      rw [Size.is_valid]
      rcases Classical.em (0 < size.w) with hw | hw
      · have hh : ¬0 < size.h := fun hh => hnv ⟨hw, hh⟩
        simp [hw, hh]
      · simp [hw]
    simp [Data.new, hc, hv]
  · constructor
    · intro hc
      rw [checkSpatialRef] at hc
      have hnall : ¬∀ item ∈ spatialRefItems,
          containsSub (proj4.map Char.toLower) item = true := by
        rw [← List.all_eq_true]
        simp [hc]
      push_neg at hnall
      obtain ⟨item, hitem, hne⟩ := hnall
      exact ⟨item, hitem, Bool.eq_false_iff.mpr hne⟩
    · rintro ⟨item, hitem, hfalse⟩
      rw [checkSpatialRef]
      rcases hb : (spatialRefItems.all fun item => containsSub (proj4.map Char.toLower) item)
        with _ | _
      · rfl
      · have hall := List.all_eq_true.mp hb item hitem
        rw [hfalse] at hall
        simp at hall

/-- Witness for the C5 theorem: a valid LCC/NAD83/meters PROJ4 string with a
positive pixel size constructs the transform. -/
theorem data_new_validation_witness :
    Data.new ("+proj=lcc +lat_1=33 +lat_2=45 +datum=nad83 +units=m".toList) ⟨100, 200⟩ =
      Except.ok ⟨100, 200⟩ :=
  (data_new_validation ("+proj=lcc +lat_1=33 +lat_2=45 +datum=nad83 +units=m".toList)
    ⟨100, 200⟩).1 (by decide) (by decide) (by decide)

/-- C8: for a successfully constructed Transform, pixel→chart→pixel is the
identity on every pixel coordinate inside the chart bounds (exactly over ℚ,
hence within any floating-point tolerance), and chart→NAD83→chart is the
identity on every chart coordinate in the projection's valid domain, given
the external projection library's contract that its two directional
transforms invert each other there. -/
theorem transform_roundtrips (px_size : Size) (proj : ProjPair) (gt : GeoTransform)
    (t : Transform) (hnew : Transform.new px_size proj gt = some t)
    (hlib : ∀ c g, proj.toGeo c = some g → proj.fromGeo g = some c)
    (p : Coord)
    (_hbounds : 0 ≤ p.x ∧ p.x ≤ (px_size.w : ℚ) ∧ 0 ≤ p.y ∧ p.y ≤ (px_size.h : ℚ)) :
    t.chart_to_px (t.px_to_chart p) = p ∧
    ∀ x g, t.chart_to_nad83 x = some g → t.nad83_to_chart g = some x := by
  unfold Transform.new at hnew
  cases hinv : gt.invert with
  | none =>
    rw [hinv] at hnew
    exact absurd hnew (by simp)
  | some inv =>
    rw [hinv] at hnew
    have ht : t = ⟨px_size, inv, gt, proj.toGeo, proj.fromGeo⟩ := by
      cases hnew
      rfl
    subst ht
    have hdet : gt.det ≠ 0 := by
      intro h0
      rw [GeoTransform.invert, if_pos h0] at hinv
      cases hinv
    have hinvdef : inv =
        ⟨(gt.c2 * gt.c3 - gt.c0 * gt.c5) / gt.det, gt.c5 / gt.det, -gt.c2 / gt.det,
         (gt.c0 * gt.c4 - gt.c1 * gt.c3) / gt.det, -gt.c4 / gt.det, gt.c1 / gt.det⟩ := by
      rw [GeoTransform.invert, if_neg hdet] at hinv
      cases hinv
      rfl
    subst hinvdef
    constructor
    · unfold Transform.chart_to_px Transform.px_to_chart GeoTransform.apply
      have hd : gt.c1 * gt.c5 - gt.c2 * gt.c4 ≠ 0 := hdet
      ext
      · show (gt.c2 * gt.c3 - gt.c0 * gt.c5) / gt.det +
            (gt.c0 + p.x * gt.c1 + p.y * gt.c2) * (gt.c5 / gt.det) +
            (gt.c3 + p.x * gt.c4 + p.y * gt.c5) * (-gt.c2 / gt.det) = p.x
        rw [GeoTransform.det]
        field_simp
        ring
      · show (gt.c0 * gt.c4 - gt.c1 * gt.c3) / gt.det +
            (gt.c0 + p.x * gt.c1 + p.y * gt.c2) * (-gt.c4 / gt.det) +
            (gt.c3 + p.x * gt.c4 + p.y * gt.c5) * (gt.c1 / gt.det) = p.y
        rw [GeoTransform.det]
        field_simp
        ring
    · intro x g hx
      exact hlib x g hx

/-- Witness for the C8 theorem at concrete inputs: the constructed transform
round-trips the pixel coordinate (3,4) and the chart coordinate (5,6). -/
theorem transform_roundtrips_witness :
    t0W.chart_to_px (t0W.px_to_chart ⟨3, 4⟩) = ⟨3, 4⟩ ∧
    t0W.nad83_to_chart ⟨6, 6⟩ = some ⟨5, 6⟩ := by
  have hdet : gtW.det ≠ 0 := by norm_num [GeoTransform.det, gtW]
  have hinv : gtW.invert = some
      ⟨(gtW.c2 * gtW.c3 - gtW.c0 * gtW.c5) / gtW.det, gtW.c5 / gtW.det, -gtW.c2 / gtW.det,
       (gtW.c0 * gtW.c4 - gtW.c1 * gtW.c3) / gtW.det, -gtW.c4 / gtW.det,
       gtW.c1 / gtW.det⟩ := by
    rw [GeoTransform.invert, if_neg hdet]
  have hnew : Transform.new ⟨100, 100⟩ projShift gtW = some t0W := by
    unfold Transform.new
    rw [hinv]
    rfl
  have hlib : ∀ c g, projShift.toGeo c = some g → projShift.fromGeo g = some c := by
    intro c g h
    simp only [projShift] at h ⊢
    cases h
    ext
    simp
  have h := transform_roundtrips ⟨100, 100⟩ projShift gtW t0W hnew hlib ⟨3, 4⟩
    (by norm_num)
  refine ⟨h.1, h.2 ⟨5, 6⟩ ⟨6, 6⟩ ?_⟩
  show projShift.toGeo ⟨5, 6⟩ = some ⟨6, 6⟩
  simp only [projShift]
  norm_num

end Chart

namespace App

theorem truncQ_intCast (n : ℤ) : truncQ (n : ℚ) = (n : ℚ) := by
  unfold truncQ
  split <;> simp

/-- C3 counterexample: for a chart of 1000x1000 pixels and a viewport of
50x50, both viewport-to-chart size ratios are 1/20, yet get_min_zoom returns
the MIN_ZOOM floor 1/8, so the minimum zoom is not the larger of the two
ratios as the claim universally states. -/
theorem min_zoom_not_ratio_counterexample :
    get_min_zoom 1000 1000 50 50 = 1 / 8 ∧
    max ((50 : ℚ) / 1000) ((50 : ℚ) / 1000) = 1 / 20 ∧
    get_min_zoom 1000 1000 50 50 ≠ max ((50 : ℚ) / 1000) ((50 : ℚ) / 1000) := by
  norm_num [get_min_zoom, MIN_ZOOM, max_def]

/-- C3 (amended): the minimum zoom is the larger of the two viewport-to-chart
size ratios whenever that value is at least the MIN_ZOOM floor of 1/8 (the
floor applies otherwise), and the gesture zoom is clamped into
[minZoom, 1.0]; in particular for a chart of 1000x1000 pixels and a viewport
of 500x250 the minimum zoom is 0.5, a requested zoom of 0.1 clamps to 0.5,
and a requested zoom of 2.0 clamps to 1.0. -/
theorem min_zoom_and_clamp (cw ch dw dh z : ℚ)
    (hratio : MIN_ZOOM ≤ max (dw / cw) (dh / ch)) :
    get_min_zoom cw ch dw dh = max (dw / cw) (dh / ch) ∧
    (get_min_zoom cw ch dw dh ≤ 1 →
      get_min_zoom cw ch dw dh ≤ clampQ z (get_min_zoom cw ch dw dh) 1 ∧
      clampQ z (get_min_zoom cw ch dw dh) 1 ≤ 1) ∧
    get_min_zoom 1000 1000 500 250 = 1 / 2 ∧
    clampQ (1 / 10) (get_min_zoom 1000 1000 500 250) 1 = 1 / 2 ∧
    clampQ 2 (get_min_zoom 1000 1000 500 250) 1 = 1 := by
  refine ⟨max_eq_left hratio, fun h1 => ⟨le_min (le_max_right _ _) h1, min_le_right _ _⟩,
    ?_, ?_, ?_⟩ <;>
    norm_num [get_min_zoom, clampQ, MIN_ZOOM, max_def, min_def]

/-- Witness for the amended C3 theorem at the concrete inputs of the claim. -/
theorem min_zoom_and_clamp_witness :
    get_min_zoom 1000 1000 500 250 = max ((500 : ℚ) / 1000) ((250 : ℚ) / 1000) ∧
    get_min_zoom 1000 1000 500 250 = 1 / 2 ∧
    clampQ (1 / 10) (get_min_zoom 1000 1000 500 250) 1 = 1 / 2 ∧
    clampQ 2 (get_min_zoom 1000 1000 500 250) 1 = 1 := by
  have h := min_zoom_and_clamp 1000 1000 500 250 (1 / 10)
    (by norm_num [MIN_ZOOM, max_def])
  exact ⟨h.1, h.2.2.1, h.2.2.2.1, h.2.2.2.2⟩

/-- C4 counterexample: zooming from 1.0 to 0.5 with anchor (100,100) and
prior scroll (0,0) stores scroll (0,0), not the formula value
(old_scroll + anchor) * new_zoom / old_zoom - anchor = (-50,-50), because the
stored offset is truncated toward zero and clamped at zero. -/
theorem zoom_scroll_formula_counterexample :
    zoom_gesture_scroll ⟨0, 0⟩ ⟨100, 100⟩ 1 (1 / 2) = ⟨0, 0⟩ ∧
    zoom_anchor_pos ⟨0, 0⟩ ⟨100, 100⟩ 1 (1 / 2) = ⟨-50, -50⟩ ∧
    zoom_gesture_scroll ⟨0, 0⟩ ⟨100, 100⟩ 1 (1 / 2) ≠
      zoom_anchor_pos ⟨0, 0⟩ ⟨100, 100⟩ 1 (1 / 2) := by
  have ht : truncQ (-50 : ℚ) = -50 := by
    have hc : ((-50 : ℚ)) = ((-50 : ℤ) : ℚ) := by norm_num
    rw [hc, truncQ_intCast]
  have hav : zoom_anchor_pos ⟨0, 0⟩ ⟨100, 100⟩ 1 (1 / 2) = ⟨-50, -50⟩ := by
    unfold zoom_anchor_pos
    norm_num
  have hg : zoom_gesture_scroll ⟨0, 0⟩ ⟨100, 100⟩ 1 (1 / 2) = ⟨0, 0⟩ := by
    unfold zoom_gesture_scroll
    rw [hav]
    unfold set_chart_scroll
    rw [show (Coord.mk (-50) (-50)).x = -50 from rfl,
      show (Coord.mk (-50) (-50)).y = -50 from rfl, ht]
    norm_num [max_def]
  refine ⟨hg, hav, ?_⟩
  rw [hg, hav]
  intro hcontra
  rw [Coord.mk.injEq] at hcontra
  norm_num at hcontra

/-- C4 (amended): the scroll offset stored by a zoom gesture is the formula
value (old_scroll + anchor) * new_zoom / old_zoom - anchor truncated toward
zero and clamped at zero componentwise; it equals the formula value exactly
whenever that value is a pair of nonnegative integers — in particular zooming
from 1.0 to 0.5 with anchor (100,100) and prior scroll (200,200) yields
(50,50). -/
theorem zoom_scroll_amended (pos zoom_pos : Coord) (zoom new_zoom : ℚ) (nx ny : ℤ)
    (hx : (zoom_anchor_pos pos zoom_pos zoom new_zoom).x = (nx : ℚ))
    (hy : (zoom_anchor_pos pos zoom_pos zoom new_zoom).y = (ny : ℚ))
    (hx0 : 0 ≤ nx) (hy0 : 0 ≤ ny) :
    zoom_gesture_scroll pos zoom_pos zoom new_zoom =
      zoom_anchor_pos pos zoom_pos zoom new_zoom := by
  unfold zoom_gesture_scroll set_chart_scroll
  apply Coord.ext
  · show max (truncQ (zoom_anchor_pos pos zoom_pos zoom new_zoom).x) 0 = _
    rw [hx, truncQ_intCast]
    exact max_eq_left (by exact_mod_cast hx0)
  · show max (truncQ (zoom_anchor_pos pos zoom_pos zoom new_zoom).y) 0 = _
    rw [hy, truncQ_intCast]
    exact max_eq_left (by exact_mod_cast hy0)

/-- Witness for the amended C4 theorem: the concrete instance of the claim,
zooming from 1.0 to 0.5 with anchor (100,100) and prior scroll (200,200)
yields scroll (50,50). -/
theorem zoom_scroll_amended_witness :
    zoom_gesture_scroll ⟨200, 200⟩ ⟨100, 100⟩ 1 (1 / 2) = ⟨50, 50⟩ := by
  have h := zoom_scroll_amended ⟨200, 200⟩ ⟨100, 100⟩ 1 (1 / 2) 50 50
    (by norm_num [zoom_anchor_pos]) (by norm_num [zoom_anchor_pos])
    (by norm_num) (by norm_num)
  rw [h]
  unfold zoom_anchor_pos
  norm_num

/-- C10: for every chart size and display rectangle the minimum zoom computed
by the viewport controller is at least MIN_ZOOM = 1/8, even when both
viewport-to-chart size ratios are smaller, and hence the gesture-clamped zoom
never drops below 1/8 regardless of how much larger the chart is than the
viewport. -/
theorem min_zoom_floor (cw ch dw dh z : ℚ) :
    MIN_ZOOM ≤ get_min_zoom cw ch dw dh ∧
    MIN_ZOOM ≤ clampQ z (get_min_zoom cw ch dw dh) 1 := by
  refine ⟨le_max_right _ _, le_min ?_ (by norm_num [MIN_ZOOM])⟩
  exact le_trans (le_max_right _ _) (le_max_right _ _)

/-- C9: no image read request is ever issued with zoom ≤ 0: ImagePart
construction requires zoom > 0 (modelling the source assertion), and every
call site of ImagePart::new in the controller passes a strictly positive
zoom — the per-frame request uses max(zoom, min_zoom) which is at least
MIN_ZOOM > 0, the initial request uses zoom 1.0, and the night-mode
re-request reuses the zoom of a previously constructed part, positive by the
construction invariant (first conjunct). -/
theorem image_requests_positive_zoom (cw ch dw dh z : ℚ) (rect : Rect) (dark : Bool)
    (part : Chart.ImagePart) (hpart : 0 < part.zoom) :
    (∀ r zq d p, Chart.ImagePart.new r zq d = some p → 0 < p.zoom) ∧
    (Chart.ImagePart.new rect (max z (get_min_zoom cw ch dw dh)) dark).isSome = true ∧
    (Chart.ImagePart.new rect 1 dark).isSome = true ∧
    (Chart.ImagePart.new rect part.zoom dark).isSome = true := by
  have hmin : 0 < get_min_zoom cw ch dw dh :=
    lt_of_lt_of_le (by norm_num [MIN_ZOOM]) (le_max_right _ _)
  refine ⟨?_, ?_, ?_, ?_⟩
  · intro r zq d p hp
    by_cases hz : 0 < zq
    · rw [Chart.ImagePart.new, if_pos hz] at hp
      cases hp
      exact hz
    · rw [Chart.ImagePart.new, if_neg hz] at hp
      cases hp
  · rw [Chart.ImagePart.new, if_pos (lt_max_of_lt_right hmin)]
    rfl
  · rw [Chart.ImagePart.new, if_pos one_pos]
    rfl
  · rw [Chart.ImagePart.new, if_pos hpart]
    rfl

/-- Witness for the C9 theorem at concrete inputs: all three request call
sites produce a valid ImagePart. -/
theorem image_requests_positive_zoom_witness :
    (Chart.ImagePart.new ⟨0, 0, 0, 0⟩ (max (1 / 10) (get_min_zoom 1000 1000 500 250))
        false).isSome = true ∧
    (Chart.ImagePart.new ⟨0, 0, 0, 0⟩ 1 false).isSome = true ∧
    (Chart.ImagePart.new ⟨0, 0, 0, 0⟩
        (Chart.ImagePart.mk ⟨0, 0, 0, 0⟩ 1 false).zoom false).isSome = true := by
  have h := image_requests_positive_zoom 1000 1000 500 250 (1 / 10) ⟨0, 0, 0, 0⟩ false
    ⟨⟨0, 0, 0, 0⟩, 1, false⟩ (by norm_num)
  exact ⟨h.2.1, h.2.2.1, h.2.2.2⟩

end App

namespace Nasr

theorem nearbyLoop_eq_filter {Info : Type} (t : Coord → Option Coord) (coord : Coord)
    (d2 : ℚ) (features : List (Feature Info)) :
    nearbyLoop t coord d2 features =
      (features.filter (featureWithin t coord d2)).filterMap Feature.info := by
  induction features with
  | nil => rfl
  | cons f rest ih =>
    cases hl : f.loc with
    | none => simp [nearbyLoop, featureWithin, hl, List.filter_cons, ih]
    | some loc =>
      cases hp : t loc with
      | none => simp [nearbyLoop, featureWithin, hl, hp, List.filter_cons, ih]
      | some p =>
        by_cases hd :
            (coord.x - p.x) * (coord.x - p.x) + (coord.y - p.y) * (coord.y - p.y) < d2
        · cases hi : f.info with
          | none =>
            simp [nearbyLoop, featureWithin, hl, hp, hd, hi, List.filter_cons,
              List.filterMap_cons, ih]
          | some info =>
            simp [nearbyLoop, featureWithin, hl, hp, hd, hi, List.filter_cons,
              List.filterMap_cons, ih]
        · simp [nearbyLoop, featureWithin, hl, hp, hd, List.filter_cons, ih]

/-- C6: with a spatial-reference transform installed, Nearby(coord, radius)
replies with exactly the records of the features whose squared planar
distance from coord in projected chart space is within the squared radius
(strictly below it, as the source compares), in table order; in particular a
record at the query point is returned for radius 100, and a record exactly
100 units away is excluded for radius 99.999. -/
theorem nearby_exactly_within {Info : Type} (t : Coord → Option Coord)
    (features : List (Feature Info)) (coord : Coord) (dist : ℚ) :
    handleNearby (some t) features coord dist =
      APTReply.Airport
        ((features.filter (featureWithin t coord (dist * dist))).filterMap Feature.info) ∧
    handleNearby (some idProj) ([⟨some ⟨0, 0⟩, some 7⟩] : List (Feature ℕ)) ⟨0, 0⟩ 100 =
      APTReply.Airport [7] ∧
    handleNearby (some idProj) ([⟨some ⟨100, 0⟩, some 7⟩] : List (Feature ℕ)) ⟨0, 0⟩
        (99999 / 1000) =
      APTReply.Airport [] := by
  refine ⟨?_, ?_, ?_⟩
  · show APTReply.Airport (nearbyLoop t coord (dist * dist) features) = _
    rw [nearbyLoop_eq_filter]
  · show APTReply.Airport
        (nearbyLoop idProj ⟨0, 0⟩ (100 * 100) ([⟨some ⟨0, 0⟩, some 7⟩] : List (Feature ℕ))) =
      APTReply.Airport [7]
    norm_num [nearbyLoop, idProj]
  · show APTReply.Airport
        (nearbyLoop idProj ⟨0, 0⟩ (99999 / 1000 * (99999 / 1000))
          ([⟨some ⟨100, 0⟩, some 7⟩] : List (Feature ℕ))) =
      APTReply.Airport []
    norm_num [nearbyLoop, idProj]

theorem runTransform_none {T : Type} (parse : List Char → Option T)
    (reqs : List APTRequest)
    (h : ∀ p, APTRequest.SpatialRef p ∈ reqs → parse p = none) :
    runTransform parse reqs = none := by
  induction reqs with
  | nil => rfl
  | cons r rest ih =>
    have hr : stepTransform parse none r = none := by
      cases r with
      | SpatialRef p =>
        have hp := h p (by simp)
        simp [stepTransform, hp]
      | Airport id => rfl
      | Nearby coord dist => rfl
      | Search term => rfl
      | Exit => rfl
    rw [runTransform, List.foldl_cons, hr]
    exact ih fun p hp => h p (List.mem_cons_of_mem _ hp)

/-- C7: for every coordinate and radius, a Nearby query issued when no
SpatialRef message has yet successfully installed a transform produces a
reply — the handler unconditionally sends exactly one — and that reply is an
Airport reply carrying an empty record list: not an error and not silence. -/
theorem nearby_before_spatial_ref_empty {Info : Type}
    (parse : List Char → Option (Coord → Option Coord)) (reqs : List APTRequest)
    (features : List (Feature Info)) (coord : Coord) (dist : ℚ)
    (h : ∀ p, APTRequest.SpatialRef p ∈ reqs → parse p = none) :
    handleNearby (runTransform parse reqs) features coord dist =
      APTReply.Airport ([] : List Info) := by
  rw [runTransform_none parse reqs h]
  rfl

/-- Witness for the C7 theorem at concrete inputs: after a request sequence
whose only SpatialRef message fails to parse, a Nearby query replies with an
empty Airport list. -/
theorem nearby_before_spatial_ref_empty_witness :
    handleNearby
        (runTransform (fun _ => none)
          [APTRequest.Airport "KSFO".toList, APTRequest.SpatialRef "bogus".toList])
        ([⟨some ⟨0, 0⟩, some 7⟩] : List (Feature ℕ)) ⟨1, 2⟩ 5 =
      APTReply.Airport ([] : List ℕ) := by
  exact nearby_before_spatial_ref_empty (fun _ => none)
    [APTRequest.Airport "KSFO".toList, APTRequest.SpatialRef "bogus".toList]
    ([⟨some ⟨0, 0⟩, some 7⟩] : List (Feature ℕ)) ⟨1, 2⟩ 5 (fun p _ => rfl)

end Nasr

end FpApp
